import Mathlib

/-!
Verification of the spacetime-visualizer sampling engine.

Shallow embedding of the two versions of the `SpacetimeVisualizer` component's
data-generation functions:

* version 1 (`spacetime-visualizer.tsx`): `generateData`;
* version 2: `calculateWarpMetric`, `generate2DData`, `generate3DData`.

The JavaScript source computes with IEEE doubles and the `Math` library.  We
embed the computations over an arbitrary linearly ordered field `α` with a
floor (exact arithmetic), packaging the transcendental library functions the
code calls (`Math.cos`, `Math.sin`, `Math.exp`, `Math.sqrt`, `Math.PI`) into a
record `MathOps α` of uninterpreted operations.  Theorems that need actual
analytic facts (`exp 0 = 1`, `sin² + cos² = 1`, ...) are stated over `ℝ` with
the genuine `Real` operations (`realOps`); theorems that hold for every
interpretation of the library are stated generically, and their witnesses
instantiate `α := ℚ` with a computable placeholder interpretation (`testOps`)
so that concrete runs can be checked by `decide`.
-/

/-- The visualization mode of version 2: the `visualMode` state variable,
one of the strings `"time"`, `"tensor"`, `"warp"`. -/
inductive Mode : Type
  | time
  | tensor
  | warp
deriving DecidableEq, Repr

/-- The mode of version 1 (`spacetime-visualizer.tsx`), which only offers
`"time"` and `"tensor"`. -/
inductive ModeV1 : Type
  | time
  | tensor
deriving DecidableEq, Repr

/-- Embedding of `"time"`/`"tensor"` of version 1 into the mode enum of
version 2 (the string values coincide). -/
def ModeV1.toMode : ModeV1 → Mode
  | .time => Mode.time
  | .tensor => Mode.tensor

/-- The transcendental library functions used by the source
(`Math.cos`, `Math.sin`, `Math.exp`, `Math.sqrt`, `Math.PI`), left
uninterpreted so that the sampling code itself stays computable. -/
structure MathOps (α : Type) where
  cos : α → α
  sin : α → α
  exp : α → α
  sqrt : α → α
  pi : α

/-- The real interpretation of the `Math` library functions. -/
noncomputable def realOps : MathOps ℝ where
  cos := Real.cos
  sin := Real.sin
  exp := Real.exp
  sqrt := Real.sqrt
  pi := Real.pi

/-- A computable placeholder interpretation over `ℚ`, used only to witness
theorems that hold for EVERY interpretation of the library functions. -/
def testOps : MathOps ℚ where
  cos := fun q => q
  sin := fun q => q
  exp := fun q => q
  sqrt := fun q => q
  pi := 0

variable {α : Type} [LinearOrderedField α] [FloorRing α]

/-- JavaScript `y.toFixed(2)` on an exact value `y`, following the ECMAScript
`Number.prototype.toFixed` algorithm: a leading `"-"` is emitted when `y < 0`
and the magnitude is then rounded to an integer count of hundredths, ties
going to the larger integer.  We represent the resulting string by the pair
(minus-sign flag, hundredths of the magnitude): `(false, 2250)` renders as
`"22.50"`, `(true, 0)` as `"-0.00"`. -/
def toFixed2 (y : α) : Bool × ℤ :=
  if y < 0 then (true, ⌊100 * (-y) + 1 / 2⌋) else (false, ⌊100 * y + 1 / 2⌋)

/-- Version 2, `calculateWarpMetric x y` (the slider value
`warpBubbleStrength` is an explicit argument here): returns the pair
`(shape, energyDensity)`.  The source also defines a constant
`thickness = 1` that no formula uses; it is reproduced here for fidelity. -/
def calculateWarpMetric (ops : MathOps α) (warpBubbleStrength x y : α) : α × α :=
  let R := ops.sqrt (x * x + y * y)
  let sigma : α := 2
  let thickness : α := 1
  let shape := ops.exp (-(R - warpBubbleStrength * 10) ^ 2 / (2 * sigma * sigma))
  let energyDensity := -|warpBubbleStrength| * shape / (8 * ops.pi)
  let _ := thickness
  (shape, energyDensity)

/-- The `y` computed by one iteration of the loop body of version 2's
`generate2DData`, at grid coordinate `x`. -/
def y2D (ops : MathOps α) (visualMode : Mode)
    (timeValue tensorValue lambdaValue warpBubbleStrength : α) (x : α) : α :=
  match visualMode with
  | .warp => (calculateWarpMetric ops warpBubbleStrength x 0).1 * warpBubbleStrength * 5
  | .time => (x - timeValue) ^ 2 / 10 * (if timeValue < 0 then -1 else 1) +
      lambdaValue * ops.cos (x / 2)
  | .tensor => tensorValue * x ^ 2 / 10 + lambdaValue * ops.sin (x / 2)

/-- Version 2, `generate2DData`: the loop `for (let i = -10; i <= 10; i++)`
pushes `{x: i, y: y.toFixed(2)}`; we model the record as the pair of the
integer `x` and the formatted `y`. -/
def generate2DData (ops : MathOps α) (visualMode : Mode)
    (timeValue tensorValue lambdaValue warpBubbleStrength : α) :
    List (ℤ × (Bool × ℤ)) :=
  (List.range 21).map (fun (k : ℕ) =>
    let x : ℤ := -10 + (k : ℤ)
    (x, toFixed2 (y2D ops visualMode timeValue tensorValue lambdaValue
      warpBubbleStrength (x : α))))

/-- The `z` computed by one iteration of the inner loop body of version 2's
`generate3DData`, from the rotated coordinates `rotX`, `rotY`. -/
def z3D (ops : MathOps α) (visualMode : Mode)
    (timeValue tensorValue lambdaValue warpBubbleStrength : α) (rotX rotY : α) : α :=
  match visualMode with
  | .warp => (calculateWarpMetric ops warpBubbleStrength rotX rotY).1 *
      warpBubbleStrength * 5
  | .time => (ops.sqrt (rotX * rotX + rotY * rotY) - timeValue) ^ 2 / 5 +
      lambdaValue * ops.cos (ops.sqrt (rotX * rotX + rotY * rotY) / 2)
  | .tensor => tensorValue * (rotX * rotX + rotY * rotY) / 5 +
      lambdaValue * ops.sin (ops.sqrt (rotX * rotX + rotY * rotY) / 2)

/-- One record of version 2's `generate3DData`, at raw grid coordinates
`(x, y)`: the source pushes the comma-separated template string of the three
numbers `x*20`, `y*20`, `z*20`, which we model as the triple of those
numbers. -/
def point3D (ops : MathOps α) (visualMode : Mode)
    (timeValue tensorValue lambdaValue warpBubbleStrength rotationAngle : α)
    (x y : α) : α × α × α :=
  let rad := rotationAngle * ops.pi / 180
  let rotX := x * ops.cos rad - y * ops.sin rad
  let rotY := x * ops.sin rad + y * ops.cos rad
  (x * 20, y * 20,
    z3D ops visualMode timeValue tensorValue lambdaValue warpBubbleStrength
      rotX rotY * 20)

/-- Version 2, `generate3DData`: the nested loops
`for (let i = -5; i <= 5; i++) for (let j = -5; j <= 5; j++)` push one record
per `(i, j)`.  The source also defines a constant `resolution = 20` that the
body never reads; it is reproduced here for fidelity. -/
def generate3DData (ops : MathOps α) (visualMode : Mode)
    (timeValue tensorValue lambdaValue warpBubbleStrength rotationAngle : α) :
    List (α × α × α) :=
  let resolution : α := 20
  let _ := resolution
  (List.range 11).flatMap (fun (ii : ℕ) =>
    (List.range 11).map (fun (jj : ℕ) =>
      point3D ops visualMode timeValue tensorValue lambdaValue
        warpBubbleStrength rotationAngle ((-5 + (ii : ℤ) : ℤ) : α)
        ((-5 + (jj : ℤ) : ℤ) : α)))

/-- The `y` computed by one iteration of the loop body of version 1's
`generateData` (`spacetime-visualizer.tsx`), at grid coordinate `x`. -/
def y2DV1 (mode : ModeV1) (timeValue tensorValue : α) (x : α) : α :=
  match mode with
  | .time => (x - timeValue) ^ 2 / 10 * (if timeValue < 0 then -1 else 1)
  | .tensor => tensorValue * x ^ 2 / 10

/-- Version 1, `generateData`: the loop `for (let i = -10; i <= 10; i++)`
pushes `{x: i, y: y.toFixed(2)}`.  The source also defines a constant
`steps = 20` that the loop never reads; it is reproduced here for fidelity. -/
def generateData (mode : ModeV1) (timeValue tensorValue : α) :
    List (ℤ × (Bool × ℤ)) :=
  let steps : ℤ := 20
  let _ := steps
  (List.range 21).map (fun (k : ℕ) =>
    let x : ℤ := -10 + (k : ℤ)
    (x, toFixed2 (y2DV1 mode timeValue tensorValue (x : α))))

theorem length_range_flatMap {β : Type} (m n : ℕ) (f : ℕ → ℕ → β) :
    ((List.range m).flatMap (fun i => (List.range n).map (f i))).length = m * n := by
  induction m with
  | zero => simp
  | succ m ih =>
    rw [List.range_succ, List.flatMap_append, List.length_append, ih]
    simp [Nat.succ_mul]

theorem getElem?_range_flatMap {β : Type} (m n : ℕ) (f : ℕ → ℕ → β)
    (a b : ℕ) (ha : a < m) (hb : b < n) :
    ((List.range m).flatMap (fun i => (List.range n).map (f i)))[a * n + b]? =
      some (f a b) := by
  induction m with
  | zero => exact absurd ha (Nat.not_lt_zero a)
  | succ m ih =>
    rw [List.range_succ, List.flatMap_append, List.getElem?_append,
      length_range_flatMap]
    rcases Nat.lt_or_ge a m with h | h
    · have hlt : a * n + b < m * n := by
        calc a * n + b < a * n + n := by omega
        _ = (a + 1) * n := by ring
        _ ≤ m * n := Nat.mul_le_mul_right n h
      rw [if_pos hlt]
      exact ih h
    · have ha2 : a = m := by omega
      subst ha2
      have hge : ¬ (a * n + b < a * n) := by omega
      rw [if_neg hge]
      have hsub : a * n + b - a * n = b := by omega
      rw [hsub]
      simp [List.getElem?_map, List.getElem?_range hb]

theorem generate2DData_getElem? {α : Type} [LinearOrderedField α] [FloorRing α]
    (ops : MathOps α) (visualMode : Mode)
    (timeValue tensorValue lambdaValue warpBubbleStrength : α)
    (k : ℕ) (hk : k < 21) :
    (generate2DData ops visualMode timeValue tensorValue lambdaValue
        warpBubbleStrength)[k]? =
      some (-10 + (k : ℤ), toFixed2 (y2D ops visualMode timeValue tensorValue
        lambdaValue warpBubbleStrength ((-10 + (k : ℤ) : ℤ) : α))) := by
  unfold generate2DData
  rw [List.getElem?_map, List.getElem?_range hk]
  rfl

theorem generateData_getElem? {α : Type} [LinearOrderedField α] [FloorRing α]
    (mode : ModeV1) (timeValue tensorValue : α) (k : ℕ) (hk : k < 21) :
    (generateData mode timeValue tensorValue)[k]? =
      some (-10 + (k : ℤ), toFixed2 (y2DV1 mode timeValue tensorValue
        ((-10 + (k : ℤ) : ℤ) : α))) := by
  unfold generateData
  rw [List.getElem?_map, List.getElem?_range hk]
  rfl

theorem generate3DData_getElem? {α : Type} [LinearOrderedField α] [FloorRing α]
    (ops : MathOps α) (visualMode : Mode)
    (timeValue tensorValue lambdaValue warpBubbleStrength rotationAngle : α)
    (a b : ℕ) (ha : a < 11) (hb : b < 11) :
    (generate3DData ops visualMode timeValue tensorValue lambdaValue
        warpBubbleStrength rotationAngle)[a * 11 + b]? =
      some (point3D ops visualMode timeValue tensorValue lambdaValue
        warpBubbleStrength rotationAngle ((-5 + (a : ℤ) : ℤ) : α)
        ((-5 + (b : ℤ) : ℤ) : α)) := by
  unfold generate3DData
  exact getElem?_range_flatMap 11 11 _ a b ha hb

/-- C1: In `Time` mode, for every parameter set and every grid coordinate
`x` of the 2D domain (an integer in `[-10, 10]`), the record of
`generate2DData` at `x` carries `y` equal to the 2-decimal formatting of
`sign(t)·(x−t)²/10 + λ·cos(x/2)`, where `sign(t) = −1` if `t < 0` and
`sign(t) = +1` if `t ≥ 0` (so in particular `sign(0) = +1`). -/
theorem time_mode_formula (ops : MathOps α)
    (timeValue tensorValue lambdaValue warpBubbleStrength : α)
    (x : ℤ) (hx1 : -10 ≤ x) (hx2 : x ≤ 10) :
    (generate2DData ops Mode.time timeValue tensorValue lambdaValue
        warpBubbleStrength)[(x + 10).toNat]? =
      some (x, toFixed2 ((if timeValue < 0 then (-1 : α) else 1) *
        ((x : α) - timeValue) ^ 2 / 10 +
        lambdaValue * ops.cos ((x : α) / 2))) := by
  have hk : (x + 10).toNat < 21 := by omega
  have hx : -10 + (((x + 10).toNat : ℕ) : ℤ) = x := by omega
  rw [generate2DData_getElem? ops Mode.time timeValue tensorValue lambdaValue
    warpBubbleStrength _ hk, hx]
  refine congrArg some (congrArg (Prod.mk x) (congrArg toFixed2 ?_))
  by_cases h : timeValue < 0
  · simp only [y2D, if_pos h]
    ring
  · simp only [y2D, if_neg h]
    ring

/-- Witness for C1: concrete run over `ℚ` at
`t = 1, T = 2, λ = 3, W = 4, x = 3`. -/
theorem time_mode_formula_witness :
    ((-10 : ℤ) ≤ 3 ∧ (3 : ℤ) ≤ 10) ∧
    (generate2DData testOps Mode.time 1 2 3 4)[((3 : ℤ) + 10).toNat]? =
      some (3, toFixed2 ((if (1 : ℚ) < 0 then (-1 : ℚ) else 1) *
        (((3 : ℤ) : ℚ) - 1) ^ 2 / 10 + 3 * testOps.cos (((3 : ℤ) : ℚ) / 2))) :=
  ⟨⟨by decide, by decide⟩,
    time_mode_formula testOps 1 2 3 4 3 (by decide) (by decide)⟩

/-- C2: For every `x`, `y` and warp strength `W`, `calculateWarpMetric`
returns `shape = exp(−(R − 10·W)²/8)` with `R = sqrt(x² + y²)` (`sigma` is
fixed at `2`, so `2·sigma² = 8`), and
`energyDensity = −|W|·shape/(8π)`; in particular at `W = 0` the point
`(0, 0)` yields `shape = 1` and `energyDensity = 0`. -/
theorem calculateWarpMetric_spec (x y W : ℝ) :
    (calculateWarpMetric realOps W x y).1 =
        Real.exp (-(Real.sqrt (x ^ 2 + y ^ 2) - 10 * W) ^ 2 / 8) ∧
    (calculateWarpMetric realOps W x y).2 =
        -|W| * (calculateWarpMetric realOps W x y).1 / (8 * Real.pi) ∧
    (calculateWarpMetric realOps 0 0 0).1 = 1 ∧
    (calculateWarpMetric realOps 0 0 0).2 = 0 := by
  have hxy : x * x + y * y = x ^ 2 + y ^ 2 := by ring
  refine ⟨?_, rfl, ?_, ?_⟩
  · simp only [calculateWarpMetric, realOps, hxy]
    congr 1
    ring
  · simp only [calculateWarpMetric, realOps]
    norm_num
  · simp only [calculateWarpMetric, realOps]
    norm_num

/-- C9: In `Warp` mode the samplers' outputs are independent of the time,
tensor and lambda parameters: any two parameter sets agreeing on
`warpBubbleStrength` (and, for 3D, on `rotationAngle`) produce identical
output sequences. -/
theorem warp_mode_independent (ops : MathOps α) (t1 T1 l1 t2 T2 l2 W θ : α) :
    generate2DData ops Mode.warp t1 T1 l1 W =
        generate2DData ops Mode.warp t2 T2 l2 W ∧
    generate3DData ops Mode.warp t1 T1 l1 W θ =
        generate3DData ops Mode.warp t2 T2 l2 W θ :=
  ⟨rfl, rfl⟩

/-- C10: version 2 refines version 1: for every `t`, `T` and both modes of
version 1, version 1's `generateData` produces exactly the same 21 records
(same integer `x` and same 2-decimal formatted `y`) as version 2's
`generate2DData` evaluated at `λ = 0` (for any warp strength, which `Time`
and `Tensor` modes ignore). -/
theorem generateData_refines (ops : MathOps α) (mode : ModeV1)
    (timeValue tensorValue warpBubbleStrength : α) :
    generateData mode timeValue tensorValue =
      generate2DData ops mode.toMode timeValue tensorValue 0
        warpBubbleStrength := by
  cases mode
  case time =>
    simp only [generateData, generate2DData, ModeV1.toMode]
    refine List.map_congr_left (fun k hk => ?_)
    simp [y2DV1, y2D]
  case tensor =>
    simp only [generateData, generate2DData, ModeV1.toMode]
    refine List.map_congr_left (fun k hk => ?_)
    simp [y2DV1, y2D]

/-- C5: For every parameter set and mode, `generate2DData` returns exactly
21 records; the record at index `k` has `x = -10 + k` (so the `x` fields
are the integers `-10` through `10`), the `x` fields are strictly
ascending, and the `y` field is the loop body's value formatted to 2
decimals by `toFixed2`. -/
theorem generate2DData_domain (ops : MathOps α) (visualMode : Mode)
    (timeValue tensorValue lambdaValue warpBubbleStrength : α) :
    (generate2DData ops visualMode timeValue tensorValue lambdaValue
        warpBubbleStrength).length = 21 ∧
    (∀ k : ℕ, k < 21 →
      (generate2DData ops visualMode timeValue tensorValue lambdaValue
          warpBubbleStrength)[k]? =
        some (-10 + (k : ℤ), toFixed2 (y2D ops visualMode timeValue
          tensorValue lambdaValue warpBubbleStrength ((-10 + (k : ℤ) : ℤ) : α)))) ∧
    (generate2DData ops visualMode timeValue tensorValue lambdaValue
        warpBubbleStrength).Pairwise (fun p q => p.1 < q.1) := by
  refine ⟨by simp [generate2DData], ?_, ?_⟩
  · exact fun k hk => generate2DData_getElem? ops visualMode timeValue
      tensorValue lambdaValue warpBubbleStrength k hk
  · unfold generate2DData
    refine List.Pairwise.map _ (fun a b hab => ?_) (List.pairwise_lt_range 21)
    show -10 + (a : ℤ) < -10 + (b : ℤ)
    omega

/-- Witness for C5: concrete instantiation over `ℚ` of the indexed-record
conjunct at `k = 4` (so `x = -6`), tensor mode, `t = 1, T = 2, λ = 3, W = 4`. -/
theorem generate2DData_domain_witness :
    (4 : ℕ) < 21 ∧
    (generate2DData testOps Mode.tensor 1 2 3 4)[(4 : ℕ)]? =
      some (-10 + ((4 : ℕ) : ℤ), toFixed2 (y2D testOps Mode.tensor 1 2 3 4
        ((-10 + ((4 : ℕ) : ℤ) : ℤ) : ℚ))) :=
  ⟨by decide,
    (generate2DData_domain testOps Mode.tensor 1 2 3 4).2.1 4 (by decide)⟩

/-- C6: In `Time` mode with `λ = 0` (and `T = 0`, which `Time` mode does not
read), the record at grid point `x = t` has `y = 0`, formatted `"0.00"`,
for every integer `t` in the domain; concretely at `t = 5` the record at
`x = 5` (index 15) is `(5, "0.00")` and the record at `x = -10` (index 0)
is `(-10, "22.50")`, the formatting of `(-10 - 5)²/10 = 22.5`. -/
theorem time_mode_zero_at_t (ops : MathOps α) (warpBubbleStrength : α)
    (t : ℤ) (h1 : -10 ≤ t) (h2 : t ≤ 10) :
    (generate2DData ops Mode.time (t : α) 0 0
        warpBubbleStrength)[(t + 10).toNat]? = some (t, toFixed2 (0 : α)) ∧
    toFixed2 (0 : α) = (false, 0) ∧
    (generate2DData ops Mode.time 5 0 0 warpBubbleStrength)[(15 : ℕ)]? =
      some (5, (false, 0)) ∧
    (generate2DData ops Mode.time 5 0 0 warpBubbleStrength)[(0 : ℕ)]? =
      some (-10, (false, 2250)) := by
  have hfmt0 : toFixed2 (0 : α) = (false, 0) := by
    unfold toFixed2
    rw [if_neg (lt_irrefl 0)]
    norm_num
  refine ⟨?_, hfmt0, ?_, ?_⟩
  · have hk : (t + 10).toNat < 21 := by omega
    have hx : -10 + (((t + 10).toNat : ℕ) : ℤ) = t := by omega
    rw [generate2DData_getElem? ops Mode.time (t : α) 0 0 warpBubbleStrength
      _ hk, hx]
    refine congrArg some (congrArg (Prod.mk t) (congrArg toFixed2 ?_))
    by_cases h : (t : α) < 0
    · simp only [y2D, if_pos h]
      ring
    · simp only [y2D, if_neg h]
      ring
  · rw [generate2DData_getElem? ops Mode.time 5 0 0 warpBubbleStrength 15
      (by norm_num)]
    refine congrArg some (congrArg (Prod.mk 5) ?_)
    have h5 : ¬ ((5 : α) < 0) := by norm_num
    have hy : y2D ops Mode.time 5 0 0 warpBubbleStrength
        ((-10 + ((15 : ℕ) : ℤ) : ℤ) : α) = 0 := by
      simp only [y2D, if_neg h5]
      push_cast
      ring
    rw [hy, hfmt0]
  · rw [generate2DData_getElem? ops Mode.time 5 0 0 warpBubbleStrength 0
      (by norm_num)]
    refine congrArg some (congrArg (Prod.mk (-10)) ?_)
    have h5 : ¬ ((5 : α) < 0) := by norm_num
    have hy : y2D ops Mode.time 5 0 0 warpBubbleStrength
        ((-10 + ((0 : ℕ) : ℤ) : ℤ) : α) = 45 / 2 := by
      simp only [y2D, if_neg h5]
      push_cast
      ring
    rw [hy]
    unfold toFixed2
    rw [if_neg (by norm_num : ¬ ((45 / 2 : α) < 0))]
    norm_num

/-- Witness for C6: the theorem applied over `ℚ` at `t = 5`, `W = 7`. -/
theorem time_mode_zero_at_t_witness :
    ((-10 : ℤ) ≤ 5 ∧ (5 : ℤ) ≤ 10) ∧
    ((generate2DData testOps Mode.time ((5 : ℤ) : ℚ) 0 0
        7)[((5 : ℤ) + 10).toNat]? = some (5, toFixed2 (0 : ℚ)) ∧
      toFixed2 (0 : ℚ) = (false, 0) ∧
      (generate2DData testOps Mode.time 5 0 0 7)[(15 : ℕ)]? =
        some (5, (false, 0)) ∧
      (generate2DData testOps Mode.time 5 0 0 7)[(0 : ℕ)]? =
        some (-10, (false, 2250))) :=
  ⟨⟨by decide, by decide⟩,
    time_mode_zero_at_t testOps 7 5 (by decide) (by decide)⟩

/-- C7: In `Tensor` mode with `λ = 0`, the sampled curve is an even
function of the grid coordinate: for every integer `x` in `[-10, 10]`, the
formatted `y` at `x` (index `x + 10`) equals the formatted `y` at `-x`
(index `10 - x`), for every tensor value and every interpretation of the
library functions. -/
theorem tensor_mode_even (ops : MathOps α)
    (timeValue tensorValue warpBubbleStrength : α)
    (x : ℤ) (hx1 : -10 ≤ x) (hx2 : x ≤ 10) :
    ((generate2DData ops Mode.tensor timeValue tensorValue 0
        warpBubbleStrength)[(x + 10).toNat]?).map (fun p => p.2) =
    ((generate2DData ops Mode.tensor timeValue tensorValue 0
        warpBubbleStrength)[(-x + 10).toNat]?).map (fun p => p.2) := by
  have hk1 : (x + 10).toNat < 21 := by omega
  have hk2 : (-x + 10).toNat < 21 := by omega
  have hx : -10 + (((x + 10).toNat : ℕ) : ℤ) = x := by omega
  have hnx : -10 + (((-x + 10).toNat : ℕ) : ℤ) = -x := by omega
  rw [generate2DData_getElem? ops Mode.tensor timeValue tensorValue 0
    warpBubbleStrength _ hk1,
    generate2DData_getElem? ops Mode.tensor timeValue tensorValue 0
    warpBubbleStrength _ hk2, hx, hnx]
  show some (toFixed2 _) = some (toFixed2 _)
  refine congrArg some (congrArg toFixed2 ?_)
  simp only [y2D]
  push_cast
  ring

/-- Witness for C7: the theorem applied over `ℚ` at `x = 7`,
`t = 1, T = 3, W = 4`. -/
theorem tensor_mode_even_witness :
    ((-10 : ℤ) ≤ 7 ∧ (7 : ℤ) ≤ 10) ∧
    ((generate2DData testOps Mode.tensor 1 3 0 4)[((7 : ℤ) + 10).toNat]?).map
        (fun p => p.2) =
      ((generate2DData testOps Mode.tensor 1 3 0 4)[(-(7 : ℤ) + 10).toNat]?).map
        (fun p => p.2) :=
  ⟨⟨by decide, by decide⟩,
    tensor_mode_even testOps 1 3 4 7 (by decide) (by decide)⟩

/-- C4: For every parameter set and mode, `generate3DData` returns exactly
121 records in row-major order over the grid `[-5, 5] × [-5, 5]`: the
record at output index `a·11 + b` (for `a, b ≤ 10`) is the point computed
at grid coordinates `i = -5 + a`, `j = -5 + b`. -/
theorem generate3DData_row_major (ops : MathOps α) (visualMode : Mode)
    (timeValue tensorValue lambdaValue warpBubbleStrength rotationAngle : α) :
    (generate3DData ops visualMode timeValue tensorValue lambdaValue
        warpBubbleStrength rotationAngle).length = 121 ∧
    ∀ a b : ℕ, a ≤ 10 → b ≤ 10 →
      (generate3DData ops visualMode timeValue tensorValue lambdaValue
          warpBubbleStrength rotationAngle)[a * 11 + b]? =
        some (point3D ops visualMode timeValue tensorValue lambdaValue
          warpBubbleStrength rotationAngle ((-5 + (a : ℤ) : ℤ) : α)
          ((-5 + (b : ℤ) : ℤ) : α)) := by
  constructor
  · have h := length_range_flatMap 11 11 (fun ii jj =>
      point3D ops visualMode timeValue tensorValue lambdaValue
        warpBubbleStrength rotationAngle ((-5 + (ii : ℤ) : ℤ) : α)
        ((-5 + (jj : ℤ) : ℤ) : α))
    exact h.trans (by norm_num)
  · intro a b ha hb
    exact generate3DData_getElem? ops visualMode timeValue tensorValue
      lambdaValue warpBubbleStrength rotationAngle a b (by omega) (by omega)

/-- Witness for C4: concrete run over `ℚ` in time mode with
`t = 1, T = 2, λ = 3, W = 4, θ = 5`, at grid indices `a = 3`, `b = 7`
(output index 40). -/
theorem generate3DData_row_major_witness :
    (generate3DData testOps Mode.time 1 2 3 4 5).length = 121 ∧
    ((3 : ℕ) ≤ 10 ∧ (7 : ℕ) ≤ 10) ∧
    (generate3DData testOps Mode.time 1 2 3 4 5)[(3 * 11 + 7 : ℕ)]? =
      some (point3D testOps Mode.time 1 2 3 4 5 ((-5 + ((3 : ℕ) : ℤ) : ℤ) : ℚ)
        ((-5 + ((7 : ℕ) : ℤ) : ℤ) : ℚ)) :=
  ⟨(generate3DData_row_major testOps Mode.time 1 2 3 4 5).1,
    ⟨by decide, by decide⟩,
    (generate3DData_row_major testOps Mode.time 1 2 3 4 5).2 3 7
      (by decide) (by decide)⟩

/-- C3 is refuted as stated: a record of `generate3DData` does not expose
the raw triple alongside the scaled one.  At tensor mode with `T = 1` and
all other parameters `0`, the first record (raw grid coordinates
`i = j = -5`, rotated identically at angle `0`, raw `z = 10`) is the bare
scaled triple `(-100, -100, 200)`: no component equals the raw `i = -5`
(respectively the raw `z = 10`), so the raw triple `(-5, -5, 10)` is not
part of the record. -/
theorem generate3DData_record_not_raw :
    (generate3DData realOps Mode.tensor 0 1 0 0 0)[(0 : ℕ)]? =
      some (-100, -100, 200) ∧
    (-100 : ℝ) ≠ -5 ∧ (200 : ℝ) ≠ 10 := by
  refine ⟨?_, by norm_num, by norm_num⟩
  have h := generate3DData_getElem? realOps Mode.tensor 0 1 0 0 0 0 0
    (by norm_num) (by norm_num)
  simp only [Nat.zero_mul, Nat.add_zero] at h
  rw [h]
  refine congrArg some ?_
  simp only [point3D, z3D, realOps]
  norm_num [Real.cos_zero, Real.sin_zero]

/-- C3 (amended): each record of `generate3DData` carries only the scaled
triple `(i·20, j·20, z·20)`: at output index `a·11 + b` with raw grid
coordinates `i = -5 + a`, `j = -5 + b`, the record equals exactly
`(i·20, j·20, z·20)` with `z` the metric value at the rotated coordinates;
the raw coordinates are recoverable from the record by dividing its
components by 20, but are not separate fields of the record. -/
theorem generate3DData_scaled_triple (ops : MathOps α) (visualMode : Mode)
    (timeValue tensorValue lambdaValue warpBubbleStrength rotationAngle : α)
    (a b : ℕ) (ha : a ≤ 10) (hb : b ≤ 10) :
    (generate3DData ops visualMode timeValue tensorValue lambdaValue
        warpBubbleStrength rotationAngle)[a * 11 + b]? =
      some (((-5 + (a : ℤ) : ℤ) : α) * 20, ((-5 + (b : ℤ) : ℤ) : α) * 20,
        z3D ops visualMode timeValue tensorValue lambdaValue warpBubbleStrength
          (((-5 + (a : ℤ) : ℤ) : α) * ops.cos (rotationAngle * ops.pi / 180) -
            ((-5 + (b : ℤ) : ℤ) : α) * ops.sin (rotationAngle * ops.pi / 180))
          (((-5 + (a : ℤ) : ℤ) : α) * ops.sin (rotationAngle * ops.pi / 180) +
            ((-5 + (b : ℤ) : ℤ) : α) * ops.cos (rotationAngle * ops.pi / 180))
          * 20) ∧
    (∀ c : α, c * 20 / 20 = c) := by
  have hdiv : ∀ c : α, c * 20 / 20 = c := fun c =>
    mul_div_cancel_right₀ c (by norm_num)
  refine ⟨?_, hdiv⟩
  rw [generate3DData_getElem? ops visualMode timeValue tensorValue
    lambdaValue warpBubbleStrength rotationAngle a b (by omega) (by omega)]
  rfl

/-- Witness for C3's amended theorem: concrete run over `ℚ` in warp mode
with `t = 1, T = 2, λ = 3, W = 4, θ = 5`, at grid indices `a = 1`,
`b = 2`. -/
theorem generate3DData_scaled_triple_witness :
    ((1 : ℕ) ≤ 10 ∧ (2 : ℕ) ≤ 10) ∧
    ((generate3DData testOps Mode.warp 1 2 3 4 5)[(1 * 11 + 2 : ℕ)]? =
      some (((-5 + ((1 : ℕ) : ℤ) : ℤ) : ℚ) * 20,
        ((-5 + ((2 : ℕ) : ℤ) : ℤ) : ℚ) * 20,
        z3D testOps Mode.warp 1 2 3 4
          (((-5 + ((1 : ℕ) : ℤ) : ℤ) : ℚ) * testOps.cos (5 * testOps.pi / 180) -
            ((-5 + ((2 : ℕ) : ℤ) : ℤ) : ℚ) * testOps.sin (5 * testOps.pi / 180))
          (((-5 + ((1 : ℕ) : ℤ) : ℤ) : ℚ) * testOps.sin (5 * testOps.pi / 180) +
            ((-5 + ((2 : ℕ) : ℤ) : ℤ) : ℚ) * testOps.cos (5 * testOps.pi / 180))
          * 20) ∧
      (∀ c : ℚ, c * 20 / 20 = c)) :=
  ⟨⟨by decide, by decide⟩,
    generate3DData_scaled_triple testOps Mode.warp 1 2 3 4 5 1 2
      (by decide) (by decide)⟩

theorem rot_sq_sum (x y r : ℝ) :
    (x * Real.cos r - y * Real.sin r) * (x * Real.cos r - y * Real.sin r) +
      (x * Real.sin r + y * Real.cos r) * (x * Real.sin r + y * Real.cos r) =
    x * x + y * y := by
  have h := Real.sin_sq_add_cos_sq r
  linear_combination (x * x + y * y) * h

omit [FloorRing α] in
theorem z3D_congr (ops : MathOps α) (visualMode : Mode)
    (timeValue tensorValue lambdaValue warpBubbleStrength : α)
    (a b c d : α) (h : a * a + b * b = c * c + d * d) :
    z3D ops visualMode timeValue tensorValue lambdaValue warpBubbleStrength
        a b =
      z3D ops visualMode timeValue tensorValue lambdaValue warpBubbleStrength
        c d := by
  cases visualMode <;> simp [z3D, calculateWarpMetric, h]

/-- C8: In exact real arithmetic the output of `generate3DData` is
independent of the rotation angle: the emitted first two coordinates are
the unrotated `i·20`, `j·20`, and `z` depends on the rotated coordinates
only through `rotX² + rotY²`, which equals `i² + j²` for every angle; hence
any two angles give equal output sequences, for every mode and parameter
set. -/
theorem generate3DData_rotation_invariant (visualMode : Mode)
    (timeValue tensorValue lambdaValue warpBubbleStrength θ1 θ2 : ℝ) :
    generate3DData realOps visualMode timeValue tensorValue lambdaValue
        warpBubbleStrength θ1 =
      generate3DData realOps visualMode timeValue tensorValue lambdaValue
        warpBubbleStrength θ2 := by
  have hpoint : ∀ x y : ℝ,
      point3D realOps visualMode timeValue tensorValue lambdaValue
          warpBubbleStrength θ1 x y =
        point3D realOps visualMode timeValue tensorValue lambdaValue
          warpBubbleStrength θ2 x y := by
    intro x y
    simp only [point3D, realOps]
    refine congrArg (Prod.mk (x * 20)) (congrArg (Prod.mk (y * 20)) ?_)
    refine congrArg (fun c => c * 20) ?_
    refine z3D_congr _ visualMode timeValue tensorValue lambdaValue
      warpBubbleStrength _ _ _ _ ?_
    rw [rot_sq_sum x y (θ1 * Real.pi / 180), rot_sq_sum x y (θ2 * Real.pi / 180)]
  simp only [generate3DData]
  refine congrArg (List.flatMap (List.range 11)) ?_
  funext ii
  refine congrArg (fun g => List.map g (List.range 11)) ?_
  funext jj
  exact hpoint _ _
